import Mathlib

/-!
Verification of the boxing Ring model
(`boxing/models/ring_model.py` and its test suite).

The embedding below mirrors the Python source:

* `Boxer` is the dataclass passed into the ring (id, name, weight, height,
  reach, age); numeric attributes are modelled with `Int`/`ℚ` and the
  floating-point arithmetic of the source with exact real/rational
  arithmetic.
* `RingModel.ring` is a plain `List Boxer`; each method becomes a function
  from the current ring contents (plus any inputs) to its result together
  with the ring contents afterwards.
* The external collaborator `update_boxer_stats` is a parameter
  `upd : Int → Outcome → Bool` (`true` = the call returns normally,
  `false` = it raises); the random draw of `get_random` is an explicit
  real argument `r`.
* Exceptions are modelled with `Except RingError`; an operation that
  raises returns the unchanged ring contents.
-/

namespace Boxing

/-- The `Boxer` dataclass (fields in source order:
`id, name, weight, height, reach, age`; the derived weight class plays no
role in the ring model and is omitted from the scope of the claims). -/
structure Boxer where
  id : Int
  name : String
  weight : Int
  height : Int
  reach : ℚ
  age : Int
deriving DecidableEq, Repr

/-- Outcome strings passed to `update_boxer_stats`. -/
inductive Outcome where
  | win
  | loss
deriving DecidableEq, Repr

/-- The exceptions the ring model can raise. -/
inductive RingError where
  /-- `ValueError("There must be two boxers to start a fight.")` -/
  | needTwoBoxers
  /-- tuple unpacking of more than two boxers in `fight` -/
  | unpackError
  /-- `ValueError("Ring is full, cannot add more boxers.")` -/
  | ringFull
  /-- `TypeError` (invalid type: expected `Boxer`) -/
  | typeError (got : String)
  /-- an exception propagated out of `update_boxer_stats` -/
  | statsUpdateFailed
deriving DecidableEq, Repr

/-- A Python value handed to `enter_ring`: either a genuine `Boxer`
instance or some other value (e.g. a dict), carrying its type name. -/
inductive PyValue where
  | boxer (b : Boxer)
  | nonBoxer (typeName : String)
deriving DecidableEq, Repr

/-- `RingModel.get_fighting_skill`:
`age_modifier = -1 if boxer.age < 25 else (-2 if boxer.age > 35 else 0)`;
`skill = (boxer.weight * len(boxer.name)) + (boxer.reach / 10) + age_modifier`. -/
def get_fighting_skill (boxer : Boxer) : ℚ :=
  let age_modifier : ℚ := if boxer.age < 25 then -1 else if boxer.age > 35 then -2 else 0
  (boxer.weight : ℚ) * (boxer.name.length : ℚ) + boxer.reach / 10 + age_modifier

/-- The score formula as the specification words it (§4.2): the three-way
age bracket written spec-side, to be compared with `get_fighting_skill` from the source. -/
def score_spec (b : Boxer) : ℚ :=
  let age_modifier : ℚ :=
    if b.age < 25 then -1
    else if b.age > 35 then -2
    else 0
  (b.weight : ℚ) * (b.name.length : ℚ) + b.reach / 10 + age_modifier

/-- `RingModel.clear_ring`: returns early when the ring is already empty,
otherwise clears the list; either way the contents end up empty. -/
def clear_ring (ring : List Boxer) : List Boxer :=
  if ring.isEmpty then ring else []

/-- `RingModel.get_boxers`: returns the current list of boxers. -/
def get_boxers (ring : List Boxer) : List Boxer :=
  ring

/-- `RingModel.enter_ring`: rejects non-`Boxer` values with a `TypeError`,
then rejects a full ring (`len >= 2`) with a `ValueError`, otherwise appends
the boxer. The pair is (raised-or-returned, ring contents afterwards). -/
def enter_ring (ring : List Boxer) (v : PyValue) : Except RingError Unit × List Boxer :=
  match v with
  | .nonBoxer t => (.error (.typeError t), ring)
  | .boxer boxer =>
      if 2 ≤ ring.length then (.error .ringFull, ring)
      else (.ok (), ring ++ [boxer])

deriving instance DecidableEq for Except

/-- What one call to `RingModel.fight` produces: the value returned (or the
exception raised), the ring contents afterwards, and the
`update_boxer_stats` invocations made, in order. -/
structure FightOutcome where
  result : Except RingError String
  ring : List Boxer
  statsCalls : List (Int × Outcome)
deriving DecidableEq, Repr

/-- Lines 64–67 of `RingModel.fight`: `update_boxer_stats(winner.id, "win")` then
`update_boxer_stats(loser.id, "loss")` (quoting of the outcome adjusted), then `self.clear_ring()` and
`return winner.name`. If a stats call raises, the exception propagates and
nothing after it runs. -/
def settle_fight (upd : Int → Outcome → Bool) (winner loser : Boxer)
    (ring : List Boxer) : FightOutcome :=
  if upd winner.id .win then
    if upd loser.id .loss then
      ⟨.ok winner.name, clear_ring ring, [(winner.id, .win), (loser.id, .loss)]⟩
    else
      ⟨.error .statsUpdateFailed, ring, [(winner.id, .win), (loser.id, .loss)]⟩
  else
    ⟨.error .statsUpdateFailed, ring, [(winner.id, .win)]⟩

open Classical in
/-- `RingModel.fight`: raises `ValueError` when fewer than two boxers are in
the ring; otherwise unpacks the two occupants, computes their skills, the
absolute gap `delta`, the logistic `normalized_delta = 1/(1 + e^(-delta))`,
compares the random draw `r` against it to pick winner and loser, then
records the stats, clears the ring and returns the name of the winner. -/
noncomputable def fight (upd : Int → Outcome → Bool) (ring : List Boxer)
    (r : ℝ) : FightOutcome :=
  if ring.length < 2 then
    ⟨.error .needTwoBoxers, ring, []⟩
  else
    match ring with
    | [boxer_1, boxer_2] =>
        let skill_1 := get_fighting_skill boxer_1
        let skill_2 := get_fighting_skill boxer_2
        let delta := |skill_1 - skill_2|
        let normalized_delta : ℝ := 1 / (1 + Real.exp (-(delta : ℝ)))
        if r < normalized_delta then
          settle_fight upd boxer_1 boxer_2 ring
        else
          settle_fight upd boxer_2 boxer_1 ring
    | _ => ⟨.error .unpackError, ring, []⟩

/-- One externally visible operation on a `RingModel`. -/
inductive RingOp where
  | enter (v : PyValue)
  | clear
  | inspect
  | doFight (r : ℝ) (upd : Int → Outcome → Bool)

/-- The ring contents after one operation, whether it returns or raises. -/
noncomputable def apply_op (ring : List Boxer) : RingOp → List Boxer
  | .enter v => (enter_ring ring v).2
  | .clear => clear_ring ring
  | .inspect => get_boxers ring
  | .doFight r upd => (fight upd ring r).ring

/-- Ring contents reached from a fresh (empty) `RingModel` by a sequence of
operations. -/
noncomputable def run_ops (ops : List RingOp) : List Boxer :=
  ops.foldl apply_op []

/-- The `sample_boxer1` fixture of `tests/test_ring_model.py`:
`Boxer(1, "Boxer 1", 165, 177, 72.0, 28, "MIDDLEWEIGHT")` (quoting adjusted). -/
def sample_boxer1 : Boxer := ⟨1, "Boxer 1", 165, 177, 72, 28⟩

/-- The `sample_boxer2` fixture of `tests/test_ring_model.py`:
`Boxer(2, "Boxer 2", 140, 150, 69.5, 25, "LIGHTWEIGHT")` (quoting adjusted). -/
def sample_boxer2 : Boxer := ⟨2, "Boxer 2", 140, 150, 69.5, 25⟩

/-- The `sample_boxer3` fixture of `tests/test_ring_model.py`:
`Boxer(3, "Boxer 3", 170, 175, 74.5, 27, "MIDDLEWEIGHT")` (quoting adjusted). -/
def sample_boxer3 : Boxer := ⟨3, "Boxer 3", 170, 175, 74.5, 27⟩

section Helpers

open Classical in
lemma fight_two_eq (upd : Int → Outcome → Bool) (b1 b2 : Boxer) (r : ℝ) :
    fight upd [b1, b2] r =
      if r < 1 / (1 + Real.exp (-((|get_fighting_skill b1 - get_fighting_skill b2| : ℚ) : ℝ))) then
        settle_fight upd b1 b2 [b1, b2]
      else settle_fight upd b2 b1 [b1, b2] := by
  simp [fight]

lemma fixture_delta :
    |get_fighting_skill sample_boxer1 - get_fighting_skill sample_boxer2| = (701/4 : ℚ) := by
  have h1 : "Boxer 1".length = 7 := rfl
  have h2 : "Boxer 2".length = 7 := rfl
  norm_num [get_fighting_skill, sample_boxer1, sample_boxer2, h1, h2]

/-- For the two test fixtures the skill gap is `175.25`, so the logistic
threshold exceeds `0.9`. -/
lemma fixture_nd_gt :
    (9/10 : ℝ) <
      1 / (1 + Real.exp
        (-((|get_fighting_skill sample_boxer1 - get_fighting_skill sample_boxer2| : ℚ) : ℝ))) := by
  rw [fixture_delta]
  have hc : (((701:ℚ)/4 : ℚ) : ℝ) = 701/4 := by push_cast; norm_num
  rw [hc]
  have hpos := Real.exp_pos (701/4 : ℝ)
  have h9 : (9:ℝ) < Real.exp (701/4) := by nlinarith [Real.add_one_le_exp (701/4 : ℝ)]
  have hexp : Real.exp (-(701/4 : ℝ)) < 1/9 := by
    have hkey : (0:ℝ) < (Real.exp (701/4) - 9) * (Real.exp (701/4))⁻¹ :=
      mul_pos (by linarith) (inv_pos.mpr hpos)
    have hinv : Real.exp (701/4) * (Real.exp (701/4))⁻¹ = 1 := mul_inv_cancel₀ (ne_of_gt hpos)
    rw [Real.exp_neg]
    nlinarith [hkey, hinv]
  have hdpos : (0:ℝ) < 1 + Real.exp (-(701/4 : ℝ)) := by positivity
  rw [lt_div_iff₀ hdpos]
  nlinarith [hexp]

/-- Whatever happens in `fight`, the ring afterwards is either untouched
(when an exception is raised) or cleared. -/
lemma fight_ring_cases (upd : Int → Outcome → Bool) (ring : List Boxer) (r : ℝ) :
    (fight upd ring r).ring = ring ∨ (fight upd ring r).ring = [] := by
  match ring with
  | [] => simp [fight]
  | [a] => simp [fight]
  | [a, b] =>
      rw [fight_two_eq]
      by_cases hr : r < 1 / (1 + Real.exp
          (-((|get_fighting_skill a - get_fighting_skill b| : ℚ) : ℝ)))
      · rw [if_pos hr]
        by_cases h1 : upd a.id .win
        · by_cases h2 : upd b.id .loss
          · simp [settle_fight, h1, h2, clear_ring]
          · simp [settle_fight, h1, h2]
        · simp [settle_fight, h1]
      · rw [if_neg hr]
        by_cases h1 : upd b.id .win
        · by_cases h2 : upd a.id .loss
          · simp [settle_fight, h1, h2, clear_ring]
          · simp [settle_fight, h1, h2]
        · simp [settle_fight, h1]
  | a :: b :: c :: tl =>
      simp only [fight]
      left
      split <;> rfl

lemma apply_op_length (ring : List Boxer) (op : RingOp) (h : ring.length ≤ 2) :
    (apply_op ring op).length ≤ 2 := by
  cases op with
  | enter v =>
      cases v with
      | nonBoxer t => exact h
      | boxer b =>
          by_cases hl : 2 ≤ ring.length
          · simpa [apply_op, enter_ring, hl] using h
          · simp only [apply_op, enter_ring, if_neg hl]
            simp
            omega
  | clear =>
      by_cases he : ring.isEmpty
      · simpa [apply_op, clear_ring, he] using h
      · simp [apply_op, clear_ring, he]
  | inspect => exact h
  | doFight r upd =>
      rcases fight_ring_cases upd ring r with hc | hc
      · simpa [apply_op, hc] using h
      · simp [apply_op, hc]

lemma foldl_apply_op_length (ops : List RingOp) :
    ∀ ring : List Boxer, ring.length ≤ 2 → (ops.foldl apply_op ring).length ≤ 2 := by
  induction ops with
  | nil =>
      intro ring h
      simpa using h
  | cons op rest ih =>
      intro ring h
      exact ih (apply_op ring op) (apply_op_length ring op h)

end Helpers

/-- C1: for every ring holding exactly two boxers, `fight` (with succeeding
stats updates) returns the display name of one of the two occupants, leaves
the ring empty, and calls `update_boxer_stats` exactly twice — the winner
with `win` and the other occupant with `loss`. -/
theorem claim_C1_fight_two_boxers (b1 b2 : Boxer) (r : ℝ) :
    (fight (fun _ _ => true) [b1, b2] r).ring = [] ∧
    (((fight (fun _ _ => true) [b1, b2] r).result = .ok b1.name ∧
       (fight (fun _ _ => true) [b1, b2] r).statsCalls = [(b1.id, .win), (b2.id, .loss)]) ∨
      ((fight (fun _ _ => true) [b1, b2] r).result = .ok b2.name ∧
       (fight (fun _ _ => true) [b1, b2] r).statsCalls = [(b2.id, .win), (b1.id, .loss)])) := by
  rw [fight_two_eq]
  by_cases h : r < 1 / (1 + Real.exp
      (-((|get_fighting_skill b1 - get_fighting_skill b2| : ℚ) : ℝ)))
  · rw [if_pos h]
    exact ⟨rfl, Or.inl ⟨rfl, rfl⟩⟩
  · rw [if_neg h]
    exact ⟨rfl, Or.inr ⟨rfl, rfl⟩⟩

/-- C2: the skill score is `(weight * length(name)) + (reach / 10) +
age_modifier` with the three-way age bracket (the spec-side `score_spec`),
boundary ages 25 and 35 get modifier 0, and the test boxer with weight 210,
name of length 10, reach 40.2 and age 30 scores exactly 2104.02. -/
theorem claim_C2_skill_formula :
    (∀ b : Boxer, get_fighting_skill b = score_spec b) ∧
    (∀ (i w h : Int) (n : String) (rch : ℚ),
      get_fighting_skill ⟨i, n, w, h, rch, 25⟩ = (w : ℚ) * (n.length : ℚ) + rch / 10) ∧
    (∀ (i w h : Int) (n : String) (rch : ℚ),
      get_fighting_skill ⟨i, n, w, h, rch, 35⟩ = (w : ℚ) * (n.length : ℚ) + rch / 10) ∧
    get_fighting_skill ⟨10, "Test Boxer", 210, 177, 40.2, 30⟩ = 2104.02 := by
  refine ⟨fun _ => rfl, ?_, ?_, ?_⟩
  · intro i w h n rch
    simp [get_fighting_skill]
  · intro i w h n rch
    simp [get_fighting_skill]
  · have hlen : "Test Boxer".length = 10 := rfl
    norm_num [get_fighting_skill, hlen]

/-- C3 (divergence witness): with the two test fixtures entered in order and
a forced draw of 0.9, the source code returns "Boxer 1" — not "Boxer 2" as
the claim (and the test `test_fight_with_two_boxers_boxer_two_wins`)
demands — because the skill gap 175.25 pushes the logistic threshold above
0.9. -/
theorem claim_C3_fight_draw_09_returns_boxer_one :
    fight (fun _ _ => true) [sample_boxer1, sample_boxer2] (0.9 : ℝ) =
      ⟨.ok "Boxer 1", [], [(1, .win), (2, .loss)]⟩ ∧
    (Except.ok "Boxer 1" : Except RingError String) ≠ .ok "Boxer 2" := by
  constructor
  · rw [fight_two_eq, if_pos (lt_of_le_of_lt (by norm_num) fixture_nd_gt)]
    rfl
  · decide

/-- C4: with the two test fixtures entered in order and a forced draw of
0.1, `fight` returns "Boxer 1". -/
theorem claim_C4_fight_draw_01_returns_boxer_one :
    fight (fun _ _ => true) [sample_boxer1, sample_boxer2] (0.1 : ℝ) =
      ⟨.ok "Boxer 1", [], [(1, .win), (2, .loss)]⟩ := by
  rw [fight_two_eq, if_pos (lt_trans (by norm_num) fixture_nd_gt)]
  rfl

open Classical in
/-- C5: in a two-occupant fight the threshold is the logistic
`1 / (1 + e^(-|s1 - s2|))`, it is always at least one half, and the
first-entered boxer is the winner exactly when the draw `r` lies below it
(otherwise the second-entered boxer wins). -/
theorem claim_C5_logistic_threshold (b1 b2 : Boxer) (r : ℝ) :
    (1/2 : ℝ) ≤
      1 / (1 + Real.exp (-((|get_fighting_skill b1 - get_fighting_skill b2| : ℚ) : ℝ))) ∧
    fight (fun _ _ => true) [b1, b2] r =
      ⟨.ok (if r < 1 / (1 + Real.exp
              (-((|get_fighting_skill b1 - get_fighting_skill b2| : ℚ) : ℝ)))
            then b1.name else b2.name),
       [],
       if r < 1 / (1 + Real.exp
           (-((|get_fighting_skill b1 - get_fighting_skill b2| : ℚ) : ℝ)))
       then [(b1.id, Outcome.win), (b2.id, Outcome.loss)]
       else [(b2.id, Outcome.win), (b1.id, Outcome.loss)]⟩ := by
  constructor
  · have habs : (0:ℝ) ≤ ((|get_fighting_skill b1 - get_fighting_skill b2| : ℚ) : ℝ) := by
      exact_mod_cast abs_nonneg _
    have hle : Real.exp (-((|get_fighting_skill b1 - get_fighting_skill b2| : ℚ) : ℝ)) ≤ 1 := by
      calc Real.exp (-((|get_fighting_skill b1 - get_fighting_skill b2| : ℚ) : ℝ))
          ≤ Real.exp 0 := Real.exp_le_exp.mpr (by linarith)
        _ = 1 := Real.exp_zero
    have hpos : (0:ℝ) <
        1 + Real.exp (-((|get_fighting_skill b1 - get_fighting_skill b2| : ℚ) : ℝ)) := by
      positivity
    rw [le_div_iff₀ hpos]
    nlinarith
  · rw [fight_two_eq]
    by_cases h : r < 1 / (1 + Real.exp
        (-((|get_fighting_skill b1 - get_fighting_skill b2| : ℚ) : ℝ)))
    · rw [if_pos h, if_pos h, if_pos h]
      rfl
    · rw [if_neg h, if_neg h, if_neg h]
      rfl

/-- C6: `fight` on a ring with fewer than two occupants raises the
"need two boxers" `ValueError`, leaves the ring unchanged, and makes no
stats-update calls. -/
theorem claim_C6_fight_needs_two (upd : Int → Outcome → Bool) (ring : List Boxer)
    (r : ℝ) (h : ring.length < 2) :
    fight upd ring r = ⟨.error .needTwoBoxers, ring, []⟩ := by
  simp [fight, h]

/-- Witness for C6: a one-occupant ring at draw 0. -/
theorem claim_C6_witness :
    ([sample_boxer1].length < 2) ∧
      fight (fun _ _ => true) [sample_boxer1] 0 =
        ⟨.error .needTwoBoxers, [sample_boxer1], []⟩ :=
  ⟨by decide, claim_C6_fight_needs_two (fun _ _ => true) [sample_boxer1] 0 (by decide)⟩

/-- C7: every ring state reachable from the empty ring by any sequence of
enter, clear, inspect and fight operations has occupancy between 0 and 2. -/
theorem claim_C7_occupancy_invariant (ops : List RingOp) :
    0 ≤ (run_ops ops).length ∧ (run_ops ops).length ≤ 2 :=
  ⟨Nat.zero_le _, foldl_apply_op_length ops [] (by simp)⟩

/-- C8: entering a proper boxer into a full ring raises the capacity
`ValueError` and leaves the two occupants unchanged; entering into a ring
with fewer than two occupants appends the boxer at the end, preserving the
order of the prior occupants. -/
theorem claim_C8_enter_capacity (ring : List Boxer) (b : Boxer) :
    (ring.length = 2 → enter_ring ring (.boxer b) = (.error .ringFull, ring)) ∧
    (ring.length < 2 → enter_ring ring (.boxer b) = (.ok (), ring ++ [b])) := by
  constructor
  · intro h
    simp [enter_ring, h]
  · intro h
    rw [enter_ring, if_neg (by omega)]

/-- Witness for C8: a third boxer is rejected by a full ring, and a second
boxer is appended after the first. -/
theorem claim_C8_witness :
    enter_ring [sample_boxer1, sample_boxer2] (.boxer sample_boxer3) =
      (.error .ringFull, [sample_boxer1, sample_boxer2]) ∧
    enter_ring [sample_boxer1] (.boxer sample_boxer2) =
      (.ok (), [sample_boxer1, sample_boxer2]) :=
  ⟨(claim_C8_enter_capacity [sample_boxer1, sample_boxer2] sample_boxer3).1 rfl,
   (claim_C8_enter_capacity [sample_boxer1] sample_boxer2).2 (by decide)⟩

/-- C9: entering a value that is not a `Boxer` raises the `TypeError` and
leaves the ring unchanged, for every ring state — in particular a full ring
still reports the type error rather than the capacity error, because the
type check comes first. -/
theorem claim_C9_enter_non_boxer (ring : List Boxer) (t : String) :
    enter_ring ring (.nonBoxer t) = (.error (.typeError t), ring) := rfl

/-- C10: if one of the two `update_boxer_stats` calls made during a
two-occupant fight raises, the exception propagates and the ring is not
cleared: both occupants remain, in their original order. -/
theorem claim_C10_stats_failure_keeps_ring (upd : Int → Outcome → Bool)
    (b1 b2 : Boxer) (r : ℝ)
    (h : ∃ c ∈ (fight upd [b1, b2] r).statsCalls, upd c.1 c.2 = false) :
    (fight upd [b1, b2] r).result = .error .statsUpdateFailed ∧
    (fight upd [b1, b2] r).ring = [b1, b2] := by
  rw [fight_two_eq] at h ⊢
  by_cases hr : r < 1 / (1 + Real.exp
      (-((|get_fighting_skill b1 - get_fighting_skill b2| : ℚ) : ℝ)))
  · rw [if_pos hr] at h ⊢
    by_cases h1 : upd b1.id .win
    · by_cases h2 : upd b2.id .loss
      · simp [settle_fight, h1, h2] at h
      · simp [settle_fight, h1, h2]
    · simp [settle_fight, h1]
  · rw [if_neg hr] at h ⊢
    by_cases h1 : upd b2.id .win
    · by_cases h2 : upd b1.id .loss
      · simp [settle_fight, h1, h2] at h
      · simp [settle_fight, h1, h2]
    · simp [settle_fight, h1]

/-- Witness for C10: a collaborator that always raises, at draw 0 (which
lies below every logistic threshold, so the first fixture is the winner). -/
theorem claim_C10_witness :
    (∃ c ∈ (fight (fun _ _ => false) [sample_boxer1, sample_boxer2] 0).statsCalls,
        (fun (_ : Int) (_ : Outcome) => false) c.1 c.2 = false) ∧
    (fight (fun _ _ => false) [sample_boxer1, sample_boxer2] 0).result =
      .error .statsUpdateFailed ∧
    (fight (fun _ _ => false) [sample_boxer1, sample_boxer2] 0).ring =
      [sample_boxer1, sample_boxer2] := by
  have hnd : (0:ℝ) < 1 / (1 + Real.exp
      (-((|get_fighting_skill sample_boxer1 - get_fighting_skill sample_boxer2| : ℚ) : ℝ))) := by
    positivity
  have hh : ∃ c ∈ (fight (fun _ _ => false) [sample_boxer1, sample_boxer2] 0).statsCalls,
      (fun (_ : Int) (_ : Outcome) => false) c.1 c.2 = false := by
    rw [fight_two_eq, if_pos hnd]
    exact ⟨(sample_boxer1.id, .win), by simp [settle_fight], rfl⟩
  exact ⟨hh, claim_C10_stats_failure_keeps_ring _ sample_boxer1 sample_boxer2 0 hh⟩

end Boxing
